import Mathlib

/-!
Shallow embedding of the trace-collection and training-data pipeline of
`src/trace-collector.ts` (class `TraceCollector`).

Modelling conventions:
* JavaScript strings are Lean `String`s; `slice(0, n)` is `String.take n`,
  `slice(-n)` on an array is `takeLast`.
* Timestamps and `Date.now()` values are `Nat` milliseconds, passed in as
  explicit parameters (the code obtains them from the clock).
* Randomly generated identifiers (`crypto.randomBytes(...).toString('hex')`)
  are passed in as explicit `String` parameters.
* The page handle is modelled by the data the snapshot code reads from it;
  `page.evaluate` results that can fail, and the wrapped `executeFn`, are
  `Except String` values (the `String` is the thrown error's message).
* The four append-only jsonl log files are `Option (List _)` fields of the
  collector state: `none` means the file does not exist yet; appending
  creates it.  Every written line is a `JSON.stringify` of a record and is
  therefore a non-empty line, so counting non-empty lines of a file is the
  length of the corresponding list.
* Operations that can throw return `Except String α × CollectorState`:
  the state component is the state at the moment of normal return or of the
  throw (JavaScript exceptions do not roll back prior field mutations).
-/

namespace TraceCollector

/-- Bounding box of an interactive element (`getBoundingClientRect`). -/
structure BoundingBox where
  x : Int
  y : Int
  width : Int
  height : Int
deriving DecidableEq, Repr

/-- `InteractiveElement` of `trace-collector.ts`. -/
structure InteractiveElement where
  selector : String
  tag : String
  text : String
  attributes : List (String × String)
  boundingBox : Option BoundingBox
deriving DecidableEq, Repr

/-- `DOMSnapshot` of `trace-collector.ts`. -/
structure DOMSnapshot where
  url : String
  title : String
  html : String
  text : String
  interactiveElements : List InteractiveElement
  timestamp : Nat
deriving DecidableEq, Repr

/-- The `type` union of `ActionTrace`: `'navigate' | 'click' | 'type' |
'extract' | 'observe' | 'screenshot' | 'scroll'`. -/
inductive ActionType where
  | navigate
  | click
  | typeText
  | extract
  | observe
  | screenshot
  | scroll
deriving DecidableEq, Repr

/-- The string value of an `ActionTrace.type` member (the source stores the
union as plain strings; `typeText` is the source's `'type'`). -/
def ActionType.toStr : ActionType → String
  | .navigate => "navigate"
  | .click => "click"
  | .typeText => "type"
  | .extract => "extract"
  | .observe => "observe"
  | .screenshot => "screenshot"
  | .scroll => "scroll"

/-- `ActionTrace` of `trace-collector.ts`. -/
structure ActionTrace where
  id : String
  type : ActionType
  instruction : String
  selector : Option String
  value : Option String
  beforeDOM : DOMSnapshot
  beforeScreenshot : String
  afterDOM : DOMSnapshot
  afterScreenshot : String
  duration_ms : Nat
  success : Bool
  error : Option String
  timestamp : Nat
deriving DecidableEq, Repr

/-- `SessionTrace` of `trace-collector.ts`.  `finalState` is `null as any`
until the session ends, hence an `Option`. -/
structure SessionTrace where
  id : String
  task : String
  startUrl : String
  actions : List ActionTrace
  success : Bool
  finalState : Option DOMSnapshot
  humanRating : Option Nat
  humanFeedback : Option String
  model : String
  totalDuration_ms : Nat
  tokenCount : Option (Nat × Nat)
  timestamp : Nat
deriving DecidableEq, Repr

/-- Metadata of an `SFTExample`. -/
structure SFTMetadata where
  success : Bool
  source_trace_id : String
  action_index : Nat
deriving DecidableEq, Repr

/-- `SFTExample` of `trace-collector.ts`. -/
structure SFTExample where
  id : String
  instruction : String
  input : String
  output : String
  metadata : SFTMetadata
deriving DecidableEq, Repr

/-- Metadata of a `PreferencePair`. -/
structure PrefMetadata where
  chosen_trace_id : String
  rejected_trace_id : String
  reason : String
deriving DecidableEq, Repr

/-- `PreferencePair` of `trace-collector.ts`. -/
structure PreferencePair where
  id : String
  instruction : String
  input : String
  chosen : String
  rejected : String
  metadata : PrefMetadata
deriving DecidableEq, Repr

/-- The mutable state of a `TraceCollector` instance together with the four
durable jsonl logs it appends to.  A log of `none` models a file that does
not exist yet. -/
structure CollectorState where
  currentSession : Option SessionTrace
  actionBuffer : List ActionTrace
  rawActionsLog : Option (List ActionTrace)
  tracesLog : Option (List SessionTrace)
  sftLog : Option (List SFTExample)
  prefLog : Option (List PreferencePair)
deriving DecidableEq, Repr

/-- Append one record to a possibly not-yet-existing log file
(`fs.appendFileSync` creates the file on first append). -/
def appendLog (log : Option (List α)) (x : α) : Option (List α) :=
  some (log.getD [] ++ [x])

/-- `Array.prototype.join('\n')`. -/
def joinLines : List String → String
  | [] => ""
  | x :: rest =>
    match rest with
    | [] => x
    | _ :: _ => x ++ "\n" ++ joinLines rest

/-- `arr.slice(-n)`: the last `n` elements (all of them when fewer). -/
def takeLast (l : List α) (n : Nat) : List α :=
  l.drop (l.length - n)

/-- What the element-enumeration `page.evaluate` reads from one DOM node
matched by `'a, button, input, select, textarea, [role="button"], [onclick]'`. -/
structure RawElement where
  tagName : String
  idAttr : String
  className : String
  textContent : String
  href : String
  typeAttr : String
  placeholder : String
  rect : BoundingBox
deriving DecidableEq, Repr

/-- What `captureDOMSnapshot` reads from the live page: `page.url()`,
`page.title()`, the cleaned `outerHTML` before the final `slice(0, 50000)`,
`document.body.innerText` before its `slice(0, 10000)`, and the matched
interactive DOM nodes in document order. -/
structure Page where
  url : String
  title : String
  cleanedHtml : String
  innerText : String
  elements : List RawElement
deriving DecidableEq, Repr

/-- The object pushed for one kept element inside the element-enumeration
loop of `captureDOMSnapshot`. -/
def mkInteractiveElement (el : RawElement) : InteractiveElement :=
  { selector := el.tagName.toLower
      ++ (if el.idAttr ≠ "" then "#" ++ el.idAttr else "")
      ++ (if el.className ≠ "" then "." ++ ((el.className.splitOn " ").headD "" ) else ""),
    tag := el.tagName.toLower,
    text := (el.textContent.take 100).trim,
    attributes :=
      [ ("id", el.idAttr), ("class", el.className), ("href", el.href),
        ("type", el.typeAttr), ("placeholder", el.placeholder) ],
    boundingBox := some el.rect }

/-- The element-enumeration loop of `captureDOMSnapshot`:
`forEach((el, i) => { if (i > 100) return; ... if zero-area return; push })`. -/
def collectElements (els : List RawElement) : List InteractiveElement :=
  (els.enum).filterMap fun p =>
    if p.1 > 100 then none
    else if p.2.rect.width = 0 ∨ p.2.rect.height = 0 then none
    else some (mkInteractiveElement p.2)

/-- `TraceCollector.captureDOMSnapshot` (the successful path; `now` is the
`new Date().toISOString()` instant). -/
def captureDOMSnapshot (page : Page) (now : Nat) : DOMSnapshot :=
  { url := page.url,
    title := page.title,
    html := page.cleanedHtml.take 50000,
    text := page.innerText.take 10000,
    interactiveElements := collectElements page.elements,
    timestamp := now }

/-- `TraceCollector.startSession`.  `newId` is the generated session id and
`now` the start instant.  The source performs no check on
`this.currentSession`: it unconditionally overwrites it. -/
def startSession (newId : String) (now : Nat) (task startUrl model : String)
    (s : CollectorState) : String × CollectorState :=
  let sess : SessionTrace :=
    { id := newId, task := task, startUrl := startUrl, actions := [],
      success := false, finalState := none, humanRating := none,
      humanFeedback := none, model := model, totalDuration_ms := 0,
      tokenCount := none, timestamp := now }
  (newId, { s with currentSession := some sess })

/-- `TraceCollector.formatActionForTraining`.  The `if (action.selector)`
and `if (action.value)` truthiness tests are false for an absent field and
for an empty string. -/
def formatActionForTraining (action : ActionTrace) : String :=
  let parts := [ "ACTION: " ++ action.type.toStr,
                 "INSTRUCTION: " ++ action.instruction ]
  let parts := parts ++ (match action.selector with
    | some sel => if sel ≠ "" then ["SELECTOR: " ++ sel] else []
    | none => [])
  let parts := parts ++ (match action.value with
    | some v => if v ≠ "" then ["VALUE: " ++ v] else []
    | none => [])
  joinLines parts

/-- `TraceCollector.formatStateForTraining`. -/
def formatStateForTraining (dom : DOMSnapshot) (previousActions : List ActionTrace) : String :=
  let parts : List String :=
    [ "URL: " ++ dom.url,
      "Title: " ++ dom.title,
      "",
      "Visible Text (truncated):",
      dom.text.take 2000,
      "",
      "Interactive Elements:" ]
    ++ (dom.interactiveElements.take 30).map (fun el =>
         "- [" ++ el.tag ++ "] " ++ el.text.take 50 ++ " (" ++ el.selector ++ ")")
  let parts :=
    if previousActions.length > 0 then
      parts ++ ["", "Previous Actions:"]
        ++ (takeLast previousActions 5).map (fun a =>
             "- " ++ a.type.toStr ++ ": " ++ a.instruction.take 100)
    else parts
  joinLines parts

/-- The `SFTExample` built for `session.actions[i]` inside
`generateSFTExamples`. -/
def mkSFTExample (session : SessionTrace) (i : Nat) (action : ActionTrace) : SFTExample :=
  { id := "sft_" ++ session.id ++ "_" ++ toString i,
    instruction := session.task,
    input := formatStateForTraining action.beforeDOM (session.actions.take i),
    output := formatActionForTraining action,
    metadata :=
      { success := action.success, source_trace_id := session.id,
        action_index := i } }

/-- The `for (let i ...)` loop of `generateSFTExamples`, with `i` the index
of the first element of the remaining list. -/
def generateSFTFrom (session : SessionTrace) : Nat → List ActionTrace → List SFTExample
  | _, [] => []
  | i, a :: rest => mkSFTExample session i a :: generateSFTFrom session (i + 1) rest

/-- `TraceCollector.generateSFTExamples`: the list of examples appended (in
order) to the SFT log for a session being closed. -/
def generateSFTExamples (session : SessionTrace) : List SFTExample :=
  generateSFTFrom session 0 session.actions

/-- `TraceCollector.recordAction`.  `beforeCap`/`afterCap` are the outcomes
of the two `captureDOMSnapshot` calls, `beforeShot`/`afterShot` the paths
returned by `captureScreenshot`, `execute` the outcome of the supplied
`executeFn` (the `String` of an `error` is the thrown error's `.message`),
`startTime`/`endTime` the two `Date.now()` readings and `now` the record's
timestamp instant.  The returned pair is (result-or-thrown-error, state at
return or throw time). -/
def recordAction {α : Type} (actionId : String)
    (beforeCap afterCap : Except String DOMSnapshot)
    (beforeShot afterShot : String)
    (type : ActionType) (instruction : String)
    (execute : Except String α)
    (startTime endTime now : Nat)
    (s : CollectorState) : Except String (Option α × ActionTrace) × CollectorState :=
  match s.currentSession with
  | none => (Except.error "No active session. Call startSession first.", s)
  | some sess =>
    match beforeCap with
    | Except.error m => (Except.error m, s)
    | Except.ok beforeDOM =>
      let succeeded : Bool := match execute with | Except.ok _ => true | Except.error _ => false
      let errMsg : Option String := match execute with | Except.ok _ => none | Except.error m => some m
      let result : Option α := match execute with | Except.ok v => some v | Except.error _ => none
      match afterCap with
      | Except.error m => (Except.error m, s)
      | Except.ok afterDOM =>
        let trace : ActionTrace :=
          { id := actionId, type := type, instruction := instruction,
            selector := none, value := none,
            beforeDOM := beforeDOM, beforeScreenshot := beforeShot,
            afterDOM := afterDOM, afterScreenshot := afterShot,
            duration_ms := endTime - startTime,
            success := succeeded, error := errMsg, timestamp := now }
        let sess1 := { sess with actions := sess.actions ++ [trace] }
        let s1 := { s with
          currentSession := some sess1,
          actionBuffer := s.actionBuffer ++ [trace],
          rawActionsLog := appendLog s.rawActionsLog trace }
        (Except.ok (result, trace), s1)

/-- `TraceCollector.endSession`.  `finalCap` is the outcome of the final
`captureDOMSnapshot` call and `now` the `Date.now()` reading.  The source
mutates `currentSession.success` before the snapshot capture, so a capture
failure leaves the open session in place with `success` already overwritten
and nothing written to any log. -/
def endSession (finalCap : Except String DOMSnapshot) (success : Bool)
    (humanRating : Option Nat) (humanFeedback : Option String) (now : Nat)
    (s : CollectorState) : Except String SessionTrace × CollectorState :=
  match s.currentSession with
  | none => (Except.error "No active session", s)
  | some sess =>
    let sess1 := { sess with success := success }
    match finalCap with
    | Except.error m => (Except.error m, { s with currentSession := some sess1 })
    | Except.ok snap =>
      let sess2 := { sess1 with
        finalState := some snap,
        totalDuration_ms := now - sess.timestamp,
        humanRating := humanRating,
        humanFeedback := humanFeedback }
      let s1 := { s with
        currentSession := none,
        actionBuffer := [],
        tracesLog := appendLog s.tracesLog sess2,
        sftLog := some ((s.sftLog.getD []) ++ generateSFTExamples sess2) }
      (Except.ok sess2, s1)

/-- The first-divergence scan of `createPreferencePair`:
`for (let i = 0; i < minLen; i++) if (better.actions[i].instruction !==
worse.actions[i].instruction) { ...; break; }`.  `pre` accumulates the
already-scanned prefix of the better session (the loop's
`better.actions.slice(0, i)`); the result carries the better action's
before-snapshot, that prefix, and the two diverging actions. -/
def divergenceData (pre : List ActionTrace) :
    List ActionTrace → List ActionTrace →
    Option (DOMSnapshot × List ActionTrace × ActionTrace × ActionTrace)
  | a :: as, b :: bs =>
    if a.instruction ≠ b.instruction then some (a.beforeDOM, pre, a, b)
    else divergenceData (pre ++ [a]) as bs
  | _, _ => none

/-- `TraceCollector.createPreferencePair` (the pure value it builds;
`pairId` is the generated random hex).  Fields `input`/`chosen`/`rejected`
keep their `''` initial values when no divergence is found within the
overlapping prefix. -/
def createPreferencePair (pairId : String) (better worse : SessionTrace)
    (reason : String) : PreferencePair :=
  let base : PreferencePair :=
    { id := "pref_" ++ pairId, instruction := better.task,
      input := "", chosen := "", rejected := "",
      metadata :=
        { chosen_trace_id := better.id, rejected_trace_id := worse.id,
          reason := reason } }
  match divergenceData [] better.actions worse.actions with
  | none => base
  | some (dom, pre, a, b) =>
    { base with
      input := formatStateForTraining dom pre,
      chosen := formatActionForTraining a,
      rejected := formatActionForTraining b }

/-- `createPreferencePair` including its unconditional
`fs.appendFileSync(PREFERENCE_FILE, ...)` side effect on the
preference-pair log. -/
def createPreferencePairLogged (pairId : String) (better worse : SessionTrace)
    (reason : String) (prefLog : Option (List PreferencePair)) :
    PreferencePair × Option (List PreferencePair) :=
  let pair := createPreferencePair pairId better worse reason
  (pair, appendLog prefLog pair)

/-- The record returned by `TraceCollector.getStats`. -/
structure Stats where
  traces : Nat
  sftExamples : Nat
  preferencePairs : Nat
deriving DecidableEq, Repr

/-- The `countLines` helper of `getStats`: 0 when the file does not exist,
otherwise the number of non-empty lines — every line of a log is a
`JSON.stringify` of a record, hence non-empty, so this is the number of
records. -/
def countLines (log : Option (List α)) : Nat :=
  match log with
  | none => 0
  | some l => l.length

/-- `TraceCollector.getStats`: line counts of the session-trace, SFT and
preference-pair logs (the raw per-action log is not read). -/
def getStats (s : CollectorState) : Stats :=
  { traces := countLines s.tracesLog,
    sftExamples := countLines s.sftLog,
    preferencePairs := countLines s.prefLog }

/-- One `{instruction, input, output}` object of the exported Alpaca-format
array. -/
structure AlpacaRow where
  instruction : String
  input : String
  output : String
deriving DecidableEq, Repr

/-- `TraceCollector.exportForHuggingFace` (the array it writes).  The source
calls `fs.readFileSync(SFT_FILE, ...)` with no existence check, so a missing
SFT log makes the call throw (modelled as `Except.error`). -/
def exportForHuggingFace (sftLog : Option (List SFTExample)) :
    Except String (List AlpacaRow) :=
  match sftLog with
  | none => Except.error "ENOENT: no such file or directory"
  | some rows => Except.ok (rows.map fun ex =>
      { instruction := ex.instruction, input := ex.input, output := ex.output })

/-- A collector state with no open session and no log file yet. -/
def stEmpty : CollectorState :=
  { currentSession := none, actionBuffer := [], rawActionsLog := none,
    tracesLog := none, sftLog := none, prefLog := none }

/-- A small concrete snapshot used by concrete instantiations. -/
def snap0 : DOMSnapshot :=
  { url := "https://example.com", title := "Example", html := "<html></html>",
    text := "hello", interactiveElements := [], timestamp := 3 }

/-- A small concrete recorded action used by concrete instantiations. -/
def act0 : ActionTrace :=
  { id := "a0", type := ActionType.click, instruction := "click the button",
    selector := none, value := none, beforeDOM := snap0,
    beforeScreenshot := "b.png", afterDOM := snap0, afterScreenshot := "a.png",
    duration_ms := 7, success := true, error := none, timestamp := 4 }

/-- A small concrete open session holding one recorded action. -/
def sess0 : SessionTrace :=
  { id := "s0", task := "buy milk", startUrl := "https://example.com",
    actions := [act0], success := false, finalState := none,
    humanRating := none, humanFeedback := none, model := "claude-sonnet",
    totalDuration_ms := 0, tokenCount := none, timestamp := 2 }

/-- A collector state whose session `sess0` is open and whose raw-action log
already holds that session's one action. -/
def stOpen : CollectorState :=
  { currentSession := some sess0, actionBuffer := [act0],
    rawActionsLog := some [act0], tracesLog := none, sftLog := none,
    prefLog := none }

/-- The arguments of one `recordAction` call (result type fixed to `Unit`;
the claims about state evolution do not depend on the action's result
value). -/
structure RecordCall where
  actionId : String
  beforeCap : Except String DOMSnapshot
  afterCap : Except String DOMSnapshot
  beforeShot : String
  afterShot : String
  kind : ActionType
  instruction : String
  execute : Except String Unit
  startTime : Nat
  endTime : Nat
  now : Nat

/-- The state after one `recordAction` call (whether it returned normally
or threw). -/
def applyRecord (s : CollectorState) (c : RecordCall) : CollectorState :=
  (recordAction c.actionId c.beforeCap c.afterCap c.beforeShot c.afterShot
    c.kind c.instruction c.execute c.startTime c.endTime c.now s).2

/-- Rendering of the before-snapshot block exactly as the spec describes it:
URL, title, visible text truncated to 2000 characters, and at most 30
interactive elements each as `[tag] text (selector)`. -/
def specSnapshotBlock (dom : DOMSnapshot) : String :=
  joinLines
    ([ "URL: " ++ dom.url,
       "Title: " ++ dom.title,
       "",
       "Visible Text (truncated):",
       dom.text.take 2000,
       "",
       "Interactive Elements:" ]
     ++ (dom.interactiveElements.take 30).map (fun el =>
          "- [" ++ el.tag ++ "] " ++ el.text.take 50 ++ " (" ++ el.selector ++ ")"))

/-- Rendering of the trailing window of the at most 5 most recent prior
actions, each as type plus truncated instruction, as the spec describes. -/
def specPrevWindow (prev : List ActionTrace) : String :=
  joinLines ((takeLast prev 5).map (fun a =>
    "- " ++ a.type.toStr ++ ": " ++ a.instruction.take 100))

/-- The spec's description of the SFT `input` linearization: the snapshot
block followed by the prior-actions window, the latter omitted entirely when
there are no prior actions. -/
def specFormatState (dom : DOMSnapshot) (prev : List ActionTrace) : String :=
  match prev with
  | [] => specSnapshotBlock dom
  | a :: rest =>
    specSnapshotBlock dom ++ "\n\nPrevious Actions:\n" ++ specPrevWindow (a :: rest)

/-- A visible (non-zero-area) interactive DOM node. -/
def rawElt : RawElement :=
  { tagName := "a", idAttr := "", className := "", textContent := "link",
    href := "https://example.com", typeAttr := "", placeholder := "",
    rect := { x := 0, y := 0, width := 10, height := 10 } }

/-- A page exposing 150 visible interactive elements. -/
def page150 : Page :=
  { url := "https://big.example.com", title := "Big", cleanedHtml := "<html>",
    innerText := "big page", elements := List.replicate 150 rawElt }

/-- The action record `recordAction` builds on `stOpen` when the supplied
`executeFn` throws an error whose message is the empty string. -/
def c1Trace : ActionTrace :=
  { id := "aid", type := ActionType.click, instruction := "go",
    selector := none, value := none, beforeDOM := snap0,
    beforeScreenshot := "bshot", afterDOM := snap0, afterScreenshot := "ashot",
    duration_ms := 1, success := false, error := some "", timestamp := 9 }

/-- An action diverging from `act0` in its `instruction`. -/
def actB : ActionTrace :=
  { act0 with id := "b0", instruction := "scroll down" }

/-- A closed session with the same task as `sess0` but a diverging first
action; used as the worse session of a concrete preference pair. -/
def sessB : SessionTrace :=
  { sess0 with id := "s1", actions := [actB] }

/-! ## Helper lemmas -/

theorem endSession_of_no_session (fcap : Except String DOMSnapshot) (b : Bool)
    (hr : Option Nat) (hf : Option String) (now : Nat) (s : CollectorState)
    (h : s.currentSession = none) :
    endSession fcap b hr hf now s = (Except.error "No active session", s) := by
  simp [endSession, h]

theorem recordAction_of_no_session {α : Type} (actionId : String)
    (bcap acap : Except String DOMSnapshot) (bs as : String)
    (ty : ActionType) (instr : String) (ex : Except String α)
    (t0 t1 now : Nat) (s : CollectorState) (h : s.currentSession = none) :
    recordAction actionId bcap acap bs as ty instr ex t0 t1 now s
      = (Except.error "No active session. Call startSession first.", s) := by
  simp [recordAction, h]

theorem recordAction_logs_invariant {α : Type} (actionId : String)
    (bcap acap : Except String DOMSnapshot) (bs as : String)
    (ty : ActionType) (instr : String) (ex : Except String α)
    (t0 t1 now : Nat) (s : CollectorState) :
    (recordAction actionId bcap acap bs as ty instr ex t0 t1 now s).2.tracesLog = s.tracesLog ∧
    (recordAction actionId bcap acap bs as ty instr ex t0 t1 now s).2.sftLog = s.sftLog ∧
    (recordAction actionId bcap acap bs as ty instr ex t0 t1 now s).2.prefLog = s.prefLog := by
  cases hcs : s.currentSession with
  | none => simp [recordAction, hcs]
  | some sess =>
    cases bcap with
    | error m => simp [recordAction, hcs]
    | ok bdom =>
      cases acap with
      | error m => simp [recordAction, hcs]
      | ok adom => simp [recordAction, hcs]

theorem getStats_applyRecord (s : CollectorState) (c : RecordCall) :
    getStats (applyRecord s c) = getStats s := by
  obtain ⟨h1, h2, h3⟩ := recordAction_logs_invariant c.actionId c.beforeCap
    c.afterCap c.beforeShot c.afterShot c.kind c.instruction c.execute
    c.startTime c.endTime c.now s
  simp [getStats, applyRecord] at *
  simp [h1, h2, h3]

theorem getStats_foldl_applyRecord :
    ∀ (calls : List RecordCall) (s : CollectorState),
      getStats (calls.foldl applyRecord s) = getStats s
  | [], _ => rfl
  | c :: cs, s => by
    rw [List.foldl_cons, getStats_foldl_applyRecord cs, getStats_applyRecord]

theorem countLines_appendLog (log : Option (List α)) (x : α) :
    countLines (appendLog log x) = countLines log + 1 := by
  cases log <;> simp [appendLog, countLines]

theorem generateSFTFrom_length (session : SessionTrace) :
    ∀ (i : Nat) (l : List ActionTrace),
      (generateSFTFrom session i l).length = l.length
  | _, [] => rfl
  | i, _ :: rest => by
    simp [generateSFTFrom, generateSFTFrom_length session (i + 1) rest]

theorem generateSFTFrom_get (session : SessionTrace) :
    ∀ (l : List ActionTrace) (i j : Nat),
      (generateSFTFrom session i l).get? j
        = (l.get? j).map (fun a => mkSFTExample session (i + j) a)
  | [], i, j => by simp [generateSFTFrom]
  | a :: rest, i, 0 => by simp [generateSFTFrom, List.get?]
  | a :: rest, i, j + 1 => by
    have ih := generateSFTFrom_get session rest (i + 1) j
    simp only [generateSFTFrom, List.get?, ih]
    have : i + 1 + j = i + (j + 1) := by omega
    rw [this]

theorem joinLines_append :
    ∀ (xs ys : List String), xs ≠ [] → ys ≠ [] →
      joinLines (xs ++ ys) = joinLines xs ++ "\n" ++ joinLines ys
  | [], _, hx, _ => absurd rfl hx
  | [x], ys, _, hy => by
    cases ys with
    | nil => exact absurd rfl hy
    | cons y ys => rfl
  | x :: x2 :: xs, ys, _, hy => by
    have ih := joinLines_append (x2 :: xs) ys (by simp) hy
    have hcons : joinLines ((x :: x2 :: xs) ++ ys)
        = x ++ "\n" ++ joinLines ((x2 :: xs) ++ ys) := rfl
    have hx : joinLines (x :: x2 :: xs) = x ++ "\n" ++ joinLines (x2 :: xs) := rfl
    rw [hcons, ih, hx]
    simp [String.append_assoc]

theorem takeLast_ne_nil (l : List α) (h : l ≠ []) : takeLast l 5 ≠ [] := by
  have hlen : (takeLast l 5).length = l.length - (l.length - 5) := by
    simp [takeLast]
  intro hcon
  rw [hcon] at hlen
  have hpos : 0 < l.length := List.length_pos.mpr h
  simp at hlen
  omega

theorem divergenceData_none_of_agree :
    ∀ (as bs pre : List ActionTrace),
      (∀ (j : Nat) (a b : ActionTrace), as.get? j = some a → bs.get? j = some b →
        a.instruction = b.instruction) →
      divergenceData pre as bs = none
  | [], bs, pre, _ => by cases bs <;> rfl
  | _ :: _, [], _, _ => rfl
  | a :: as, b :: bs, pre, h => by
    have hhead : a.instruction = b.instruction := h 0 a b rfl rfl
    have ih := divergenceData_none_of_agree as bs (pre ++ [a])
      (fun j x y hx hy => h (j + 1) x y (by simpa using hx) (by simpa using hy))
    simp [divergenceData, hhead, ih]

theorem divergenceData_some_of_div :
    ∀ (k : Nat) (as bs pre : List ActionTrace) (a b : ActionTrace),
      as.get? k = some a → bs.get? k = some b →
      (∀ (j : Nat) (x y : ActionTrace), j < k → as.get? j = some x →
        bs.get? j = some y → x.instruction = y.instruction) →
      a.instruction ≠ b.instruction →
      divergenceData pre as bs = some (a.beforeDOM, pre ++ as.take k, a, b)
  | 0, as, bs, pre, a, b, ha, hb, _, hdiv => by
    cases as with
    | nil => simp [List.get?] at ha
    | cons a0 as =>
      cases bs with
      | nil => simp [List.get?] at hb
      | cons b0 bs =>
        simp [List.get?] at ha hb
        subst ha; subst hb
        simp [divergenceData, hdiv]
  | k + 1, as, bs, pre, a, b, ha, hb, hagree, hdiv => by
    cases as with
    | nil => simp [List.get?] at ha
    | cons a0 as =>
      cases bs with
      | nil => simp [List.get?] at hb
      | cons b0 bs =>
        have hhead : a0.instruction = b0.instruction := hagree 0 a0 b0 (by omega) rfl rfl
        have ih := divergenceData_some_of_div k as bs (pre ++ [a0]) a b
          (by simpa using ha) (by simpa using hb)
          (fun j x y hj hx hy =>
            hagree (j + 1) x y (by omega) (by simpa using hx) (by simpa using hy))
          hdiv
        simp only [divergenceData]
        rw [if_neg (by simp [hhead]), ih]
        simp [List.append_assoc, List.take_succ_cons]

/-! ## Claim theorems -/

/-- C1 (counterexample): `recordAction` stores the thrown error's message
verbatim, so when the supplied `executeFn` throws an error whose `.message`
is the empty string, the returned record's error message is empty — the
claim's "non-empty error message" fails on this input. -/
theorem C1_counterexample :
    (recordAction (α := Nat) "aid" (Except.ok snap0) (Except.ok snap0)
        "bshot" "ashot" ActionType.click "go" (Except.error "") 0 1 9 stOpen).1
      = Except.ok (none, c1Trace)
    ∧ c1Trace.success = false
    ∧ c1Trace.error = some ""
    ∧ String.length "" = 0 :=
  ⟨rfl, rfl, rfl, rfl⟩

/-- C1 (amended): with an open session and successful snapshot captures, a
`recordAction` call whose `executeFn` throws still returns normally with
exactly one new ActionRecord: the record has `success = false` and carries
the thrown error's message (non-empty exactly when that message is
non-empty), it is the single record appended to the open session's action
sequence, and it is the single record appended to the raw action log. -/
theorem C1_record_on_throw {α : Type} (actionId bshot ashot instr msg : String)
    (bdom adom : DOMSnapshot) (ty : ActionType) (t0 t1 now : Nat)
    (s : CollectorState) (sess : SessionTrace)
    (h : s.currentSession = some sess) :
    ∃ tr : ActionTrace,
      (recordAction (α := α) actionId (Except.ok bdom) (Except.ok adom)
          bshot ashot ty instr (Except.error msg) t0 t1 now s).1
        = Except.ok (none, tr)
      ∧ tr.success = false
      ∧ tr.error = some msg
      ∧ (recordAction (α := α) actionId (Except.ok bdom) (Except.ok adom)
          bshot ashot ty instr (Except.error msg) t0 t1 now s).2.currentSession
          = some { sess with actions := sess.actions ++ [tr] }
      ∧ (recordAction (α := α) actionId (Except.ok bdom) (Except.ok adom)
          bshot ashot ty instr (Except.error msg) t0 t1 now s).2.rawActionsLog
          = appendLog s.rawActionsLog tr := by
  refine ⟨{ id := actionId, type := ty, instruction := instr, selector := none,
            value := none, beforeDOM := bdom, beforeScreenshot := bshot,
            afterDOM := adom, afterScreenshot := ashot,
            duration_ms := t1 - t0, success := false, error := some msg,
            timestamp := now }, ?_, rfl, rfl, ?_, ?_⟩
  · simp [recordAction, h]
  · simp [recordAction, h]
  · simp [recordAction, h]

/-- C1 (witness): the amended theorem at a concrete throwing call. -/
theorem C1_record_on_throw_holds :
    ∃ tr : ActionTrace,
      (recordAction (α := Nat) "aid" (Except.ok snap0) (Except.ok snap0)
          "bshot" "ashot" ActionType.click "go" (Except.error "boom") 0 1 9 stOpen).1
        = Except.ok (none, tr)
      ∧ tr.success = false
      ∧ tr.error = some "boom"
      ∧ (recordAction (α := Nat) "aid" (Except.ok snap0) (Except.ok snap0)
          "bshot" "ashot" ActionType.click "go" (Except.error "boom") 0 1 9 stOpen).2.currentSession
          = some { sess0 with actions := sess0.actions ++ [tr] }
      ∧ (recordAction (α := Nat) "aid" (Except.ok snap0) (Except.ok snap0)
          "bshot" "ashot" ActionType.click "go" (Except.error "boom") 0 1 9 stOpen).2.rawActionsLog
          = appendLog stOpen.rawActionsLog tr :=
  C1_record_on_throw "aid" "bshot" "ashot" "go" "boom" snap0 snap0
    ActionType.click 0 1 9 stOpen sess0 rfl

/-- C2 (counterexample): on a state whose open session `sess0` has one
recorded action, `startSession` is not rejected: it returns the fresh id and
installs a fresh session with no actions in the open slot, so the open
session slot no longer holds `sess0`. -/
theorem C2_counterexample :
    stOpen.currentSession = some sess0
    ∧ sess0.actions.length = 1
    ∧ (startSession "fresh" 11 "task2" "https://u2" "m2" stOpen).1 = "fresh"
    ∧ (startSession "fresh" 11 "task2" "https://u2" "m2" stOpen).2.currentSession
        = some { id := "fresh", task := "task2", startUrl := "https://u2",
                 actions := [], success := false, finalState := none,
                 humanRating := none, humanFeedback := none, model := "m2",
                 totalDuration_ms := 0, tokenCount := none, timestamp := 11 }
    ∧ ("fresh" : String) ≠ sess0.id := by
  refine ⟨rfl, rfl, rfl, rfl, ?_⟩
  decide

/-- C2 (amended): `startSession` while a session is already open does not
fail: it succeeds, returns the new id, and silently replaces the open
session with a fresh one with empty action sequence; no durable log is
written, so the previously open session is discarded unpersisted (its own
value is not mutated, merely dropped from the open slot). -/
theorem C2_startSession_replaces (newId task url model : String) (now : Nat)
    (s : CollectorState) (sess : SessionTrace)
    (h : s.currentSession = some sess) :
    (startSession newId now task url model s).1 = newId
    ∧ (startSession newId now task url model s).2.currentSession
        = some { id := newId, task := task, startUrl := url, actions := [],
                 success := false, finalState := none, humanRating := none,
                 humanFeedback := none, model := model, totalDuration_ms := 0,
                 tokenCount := none, timestamp := now }
    ∧ (startSession newId now task url model s).2.rawActionsLog = s.rawActionsLog
    ∧ (startSession newId now task url model s).2.tracesLog = s.tracesLog
    ∧ (startSession newId now task url model s).2.sftLog = s.sftLog
    ∧ (startSession newId now task url model s).2.prefLog = s.prefLog :=
  ⟨rfl, rfl, rfl, rfl, rfl, rfl⟩

/-- C2 (witness): the amended theorem at the concrete state `stOpen`. -/
theorem C2_startSession_replaces_holds :
    (startSession "fresh" 11 "task2" "https://u2" "m2" stOpen).1 = "fresh"
    ∧ (startSession "fresh" 11 "task2" "https://u2" "m2" stOpen).2.currentSession
        = some { id := "fresh", task := "task2", startUrl := "https://u2",
                 actions := [], success := false, finalState := none,
                 humanRating := none, humanFeedback := none, model := "m2",
                 totalDuration_ms := 0, tokenCount := none, timestamp := 11 }
    ∧ (startSession "fresh" 11 "task2" "https://u2" "m2" stOpen).2.rawActionsLog
        = stOpen.rawActionsLog
    ∧ (startSession "fresh" 11 "task2" "https://u2" "m2" stOpen).2.tracesLog
        = stOpen.tracesLog
    ∧ (startSession "fresh" 11 "task2" "https://u2" "m2" stOpen).2.sftLog
        = stOpen.sftLog
    ∧ (startSession "fresh" 11 "task2" "https://u2" "m2" stOpen).2.prefLog
        = stOpen.prefLog :=
  C2_startSession_replaces "fresh" "task2" "https://u2" "m2" 11 stOpen sess0 rfl

/-- C3: with no open session, `recordAction` and `endSession` both fail
immediately with their no-active-session errors and leave the state — in
particular every durable log — untouched; and after a successful
`endSession` the open slot is cleared, so a second `endSession` in a row
fails the same way without changing the state further. -/
theorem C3_no_session_fails {α : Type} (actionId : String)
    (bcap acap : Except String DOMSnapshot) (bshot ashot : String)
    (ty : ActionType) (instr : String) (ex : Except String α)
    (t0 t1 now : Nat)
    (fcap : Except String DOMSnapshot) (b : Bool) (hr : Option Nat)
    (hf : Option String) (now2 : Nat)
    (s : CollectorState) (h : s.currentSession = none)
    (s2 : CollectorState) (sess : SessionTrace)
    (h2 : s2.currentSession = some sess)
    (snap : DOMSnapshot) (b2 : Bool) (hr2 : Option Nat) (hf2 : Option String)
    (now3 : Nat)
    (fcap2 : Except String DOMSnapshot) (b3 : Bool) (hr3 : Option Nat)
    (hf3 : Option String) (now4 : Nat) :
    recordAction actionId bcap acap bshot ashot ty instr ex t0 t1 now s
      = (Except.error "No active session. Call startSession first.", s)
    ∧ endSession fcap b hr hf now2 s = (Except.error "No active session", s)
    ∧ (endSession (Except.ok snap) b2 hr2 hf2 now3 s2).2.currentSession = none
    ∧ endSession fcap2 b3 hr3 hf3 now4 (endSession (Except.ok snap) b2 hr2 hf2 now3 s2).2
      = (Except.error "No active session",
         (endSession (Except.ok snap) b2 hr2 hf2 now3 s2).2) := by
  have h3 : (endSession (Except.ok snap) b2 hr2 hf2 now3 s2).2.currentSession = none := by
    simp [endSession, h2]
  exact ⟨recordAction_of_no_session actionId bcap acap bshot ashot ty instr ex t0 t1 now s h,
    endSession_of_no_session fcap b hr hf now2 s h,
    h3,
    endSession_of_no_session fcap2 b3 hr3 hf3 now4 _ h3⟩

/-- C3 (witness): the theorem at the concrete states `stEmpty` (no open
session) and `stOpen` (open session `sess0`). -/
theorem C3_no_session_fails_holds :
    recordAction (α := Nat) "aid" (Except.ok snap0) (Except.ok snap0)
        "bshot" "ashot" ActionType.click "go" (Except.ok 0) 0 1 9 stEmpty
      = (Except.error "No active session. Call startSession first.", stEmpty)
    ∧ endSession (Except.ok snap0) true none none 20 stEmpty
      = (Except.error "No active session", stEmpty)
    ∧ (endSession (Except.ok snap0) true none none 20 stOpen).2.currentSession = none
    ∧ endSession (Except.ok snap0) false none none 30
        (endSession (Except.ok snap0) true none none 20 stOpen).2
      = (Except.error "No active session",
         (endSession (Except.ok snap0) true none none 20 stOpen).2) :=
  C3_no_session_fails "aid" (Except.ok snap0) (Except.ok snap0) "bshot" "ashot"
    ActionType.click "go" (Except.ok 0) 0 1 9 (Except.ok snap0) true none none 20
    stEmpty rfl stOpen sess0 rfl snap0 true none none 20
    (Except.ok snap0) false none none 30

/-- C5: closing a session synthesizes exactly one SFTExample per
ActionRecord, in execution order; the example at position `i` carries
provenance `source_trace_id` = the session id and `action_index = i`,
together with that action's own success flag (so failed actions are kept,
never filtered). -/
theorem C5_sft_one_per_action (session : SessionTrace) (i : Nat)
    (a : ActionTrace) (h : session.actions.get? i = some a) :
    (generateSFTExamples session).length = session.actions.length
    ∧ ∃ ex : SFTExample,
        (generateSFTExamples session).get? i = some ex
        ∧ ex.metadata.action_index = i
        ∧ ex.metadata.source_trace_id = session.id
        ∧ ex.metadata.success = a.success
        ∧ ex.instruction = session.task
        ∧ ex.output = formatActionForTraining a
        ∧ ex.input = formatStateForTraining a.beforeDOM (session.actions.take i) := by
  constructor
  · exact generateSFTFrom_length session 0 session.actions
  · refine ⟨mkSFTExample session i a, ?_, rfl, rfl, rfl, rfl, rfl, rfl⟩
    have hg := generateSFTFrom_get session session.actions 0 i
    rw [generateSFTExamples, hg, h]
    simp

/-- C5 (witness): the theorem at the concrete closed session `sess0`, whose
single action sits at index 0. -/
theorem C5_sft_one_per_action_holds :
    (generateSFTExamples sess0).length = sess0.actions.length
    ∧ ∃ ex : SFTExample,
        (generateSFTExamples sess0).get? 0 = some ex
        ∧ ex.metadata.action_index = 0
        ∧ ex.metadata.source_trace_id = sess0.id
        ∧ ex.metadata.success = act0.success
        ∧ ex.instruction = sess0.task
        ∧ ex.output = formatActionForTraining act0
        ∧ ex.input = formatStateForTraining act0.beforeDOM (sess0.actions.take 0) :=
  C5_sft_one_per_action sess0 0 act0 rfl

/-- C9: when the final snapshot capture inside `endSession` throws, the
error propagates and the resulting state differs from the original only in
the open session's `success` field, which was already overwritten with the
argument before the failed capture: no log is written and the open-session
slot is not cleared, so a later `endSession` call (whose capture succeeds)
still closes the session. -/
theorem C9_endSession_not_atomic (m : String) (b : Bool) (hr : Option Nat)
    (hf : Option String) (now : Nat) (s : CollectorState) (sess : SessionTrace)
    (h : s.currentSession = some sess)
    (snap : DOMSnapshot) (b2 : Bool) (hr2 : Option Nat) (hf2 : Option String)
    (now2 : Nat) :
    endSession (Except.error m) b hr hf now s
      = (Except.error m, { s with currentSession := some { sess with success := b } })
    ∧ (∃ closed : SessionTrace,
        (endSession (Except.ok snap) b2 hr2 hf2 now2
          (endSession (Except.error m) b hr hf now s).2).1 = Except.ok closed)
    ∧ (endSession (Except.ok snap) b2 hr2 hf2 now2
        (endSession (Except.error m) b hr hf now s).2).2.currentSession = none := by
  have h1 : endSession (Except.error m) b hr hf now s
      = (Except.error m, { s with currentSession := some { sess with success := b } }) := by
    simp [endSession, h]
  refine ⟨h1, ?_, ?_⟩
  · rw [h1]
    simp [endSession]
  · rw [h1]
    simp [endSession]

/-- C9 (witness): the theorem at the concrete open state `stOpen` with a
failing final capture followed by a succeeding one. -/
theorem C9_endSession_not_atomic_holds :
    endSession (Except.error "nav gone") true none none 50 stOpen
      = (Except.error "nav gone",
         { stOpen with currentSession := some { sess0 with success := true } })
    ∧ (∃ closed : SessionTrace,
        (endSession (Except.ok snap0) true none none 60
          (endSession (Except.error "nav gone") true none none 50 stOpen).2).1
          = Except.ok closed)
    ∧ (endSession (Except.ok snap0) true none none 60
        (endSession (Except.error "nav gone") true none none 50 stOpen).2).2.currentSession
      = none :=
  C9_endSession_not_atomic "nav gone" true none none 50 stOpen sess0 rfl
    snap0 true none none 60

/-- C10: `getStats` counts the session-trace log, which `recordAction`
never writes (its records go to the separate raw-action log), so any
sequence of `recordAction` calls leaves all three `getStats` counts
unchanged, while closing a session appends exactly one line to the
session-trace log. -/
theorem C10_stats_ignore_raw_actions (calls : List RecordCall)
    (s : CollectorState) (s2 : CollectorState) (sess : SessionTrace)
    (h2 : s2.currentSession = some sess) (snap : DOMSnapshot) (b : Bool)
    (hr : Option Nat) (hf : Option String) (now : Nat) :
    getStats (calls.foldl applyRecord s) = getStats s
    ∧ countLines ((endSession (Except.ok snap) b hr hf now s2).2.tracesLog)
        = countLines s2.tracesLog + 1 := by
  refine ⟨getStats_foldl_applyRecord calls s, ?_⟩
  have : (endSession (Except.ok snap) b hr hf now s2).2.tracesLog
      = appendLog s2.tracesLog
          ({ sess with
             success := b
             finalState := some snap
             totalDuration_ms := now - sess.timestamp
             humanRating := hr
             humanFeedback := hf } : SessionTrace) := by
    simp [endSession, h2]
  rw [this, countLines_appendLog]

/-- C10 (witness): the theorem at a concrete two-call record sequence on
`stEmpty` and a concrete session close on `stOpen`. -/
theorem C10_stats_ignore_raw_actions_holds :
    getStats ([ { actionId := "r1", beforeCap := Except.ok snap0,
                  afterCap := Except.ok snap0, beforeShot := "b1",
                  afterShot := "a1", kind := ActionType.navigate,
                  instruction := "open page", execute := Except.ok (),
                  startTime := 0, endTime := 1, now := 2 },
                { actionId := "r2", beforeCap := Except.ok snap0,
                  afterCap := Except.ok snap0, beforeShot := "b2",
                  afterShot := "a2", kind := ActionType.click,
                  instruction := "press", execute := Except.error "nope",
                  startTime := 3, endTime := 4, now := 5 } ].foldl applyRecord stOpen)
      = getStats stOpen
    ∧ countLines ((endSession (Except.ok snap0) true none none 70 stOpen).2.tracesLog)
        = countLines stOpen.tracesLog + 1 :=
  C10_stats_ignore_raw_actions _ stOpen stOpen sess0 rfl snap0 true none none 70

/-- C4: comparing two closed sessions, (1) if the action sequences first
differ in instruction text at index `k` of the overlapping prefix, the
pair's `chosen` and `rejected` are the linearized actions of the better and
worse session at `k` and its `input` is built from the better session's
before-snapshot at `k` plus its action history `[0, k)` only; (2) with no
divergence within the overlapping prefix, `input`, `chosen` and `rejected`
are all empty strings; (3) in either case the pair is appended to the
preference-pair log. -/
theorem C4_preference_pair (pairId reason : String) (better worse : SessionTrace)
    (log : Option (List PreferencePair)) :
    (∀ (k : Nat) (a b : ActionTrace),
        better.actions.get? k = some a → worse.actions.get? k = some b →
        (∀ (j : Nat) (x y : ActionTrace), j < k → better.actions.get? j = some x →
          worse.actions.get? j = some y → x.instruction = y.instruction) →
        a.instruction ≠ b.instruction →
        (createPreferencePair pairId better worse reason).chosen
            = formatActionForTraining a
        ∧ (createPreferencePair pairId better worse reason).rejected
            = formatActionForTraining b
        ∧ (createPreferencePair pairId better worse reason).input
            = formatStateForTraining a.beforeDOM (better.actions.take k))
    ∧ ((∀ (j : Nat) (x y : ActionTrace), better.actions.get? j = some x →
          worse.actions.get? j = some y → x.instruction = y.instruction) →
        (createPreferencePair pairId better worse reason).input = ""
        ∧ (createPreferencePair pairId better worse reason).chosen = ""
        ∧ (createPreferencePair pairId better worse reason).rejected = "")
    ∧ (createPreferencePairLogged pairId better worse reason log).2
        = appendLog log (createPreferencePair pairId better worse reason) := by
  refine ⟨?_, ?_, rfl⟩
  · intro k a b ha hb hagree hdiv
    have hd := divergenceData_some_of_div k better.actions worse.actions [] a b
      ha hb hagree hdiv
    simp [createPreferencePair, hd]
  · intro hagree
    have hd := divergenceData_none_of_agree better.actions worse.actions [] hagree
    simp [createPreferencePair, hd]

/-- C4 (witness): the theorem at the concrete sessions `sess0` and `sessB`,
which diverge at index 0. -/
theorem C4_preference_pair_holds :
    ((createPreferencePair "p0" sess0 sessB "better outcome").chosen
        = formatActionForTraining act0
    ∧ (createPreferencePair "p0" sess0 sessB "better outcome").rejected
        = formatActionForTraining actB
    ∧ (createPreferencePair "p0" sess0 sessB "better outcome").input
        = formatStateForTraining act0.beforeDOM (sess0.actions.take 0))
    ∧ (createPreferencePairLogged "p0" sess0 sessB "better outcome" none).2
        = appendLog none (createPreferencePair "p0" sess0 sessB "better outcome") :=
  ⟨(C4_preference_pair "p0" "better outcome" sess0 sessB none).1 0 act0 actB
      rfl rfl (fun j _ _ hj _ _ => absurd hj (Nat.not_lt_zero j)) (by decide),
   (C4_preference_pair "p0" "better outcome" sess0 sessB none).2.2⟩

set_option maxRecDepth 4000 in
/-- C6: the element-capture loop's guard is `if (i > 100) return`, which
keeps indices 0 through 100: a page exposing 150 visible interactive
elements yields 101 captured entries, not the 100 entries that the claim
(and the source's own `// Limit to 100 elements` comment) state. -/
theorem C6_element_cap_off_by_one :
    page150.elements.length = 150
    ∧ rawElt.rect.width = 10
    ∧ rawElt.rect.height = 10
    ∧ (captureDOMSnapshot page150 0).interactiveElements.length = 101
    ∧ ((captureDOMSnapshot page150 0).interactiveElements.length = 100 → False) := by
  refine ⟨by decide, rfl, rfl, by decide, ?_⟩
  intro h
  have h101 : (captureDOMSnapshot page150 0).interactiveElements.length = 101 := by decide
  omega

/-- C8 (counterexample): `exportForHuggingFace` reads the SFT log with no
existence check, so on a missing SFT log it throws instead of producing the
empty array the claim promises. -/
theorem C8_counterexample :
    exportForHuggingFace none = Except.error "ENOENT: no such file or directory"
    ∧ exportForHuggingFace none ≠ Except.ok [] := by
  refine ⟨rfl, ?_⟩
  intro h
  exact Except.noConfusion h

/-- C8 (amended): `getStats` never fails and returns count 0 for every
missing log file, but the batch export to `{instruction, input, output}`
format fails (the underlying file read throws) when the SFT example log is
missing, rather than producing an empty array. -/
theorem C8_missing_files (s : CollectorState) :
    (s.tracesLog = none → (getStats s).traces = 0)
    ∧ (s.sftLog = none → (getStats s).sftExamples = 0)
    ∧ (s.prefLog = none → (getStats s).preferencePairs = 0)
    ∧ (s.sftLog = none →
        exportForHuggingFace s.sftLog = Except.error "ENOENT: no such file or directory") := by
  refine ⟨?_, ?_, ?_, ?_⟩ <;> intro h <;> simp [getStats, countLines, exportForHuggingFace, h]

/-- C8 (witness): the amended theorem at the concrete log-less state
`stEmpty`. -/
theorem C8_missing_files_holds :
    (stEmpty.tracesLog = none → (getStats stEmpty).traces = 0)
    ∧ (stEmpty.sftLog = none → (getStats stEmpty).sftExamples = 0)
    ∧ (stEmpty.prefLog = none → (getStats stEmpty).preferencePairs = 0)
    ∧ (stEmpty.sftLog = none →
        exportForHuggingFace stEmpty.sftLog
          = Except.error "ENOENT: no such file or directory") :=
  C8_missing_files stEmpty

theorem joinLines_base_window (B : List String) (e0 : String) (erest : List String)
    (hB : B ≠ []) :
    joinLines ((B ++ ["", "Previous Actions:"]) ++ (e0 :: erest))
      = joinLines B ++ "\n\nPrevious Actions:\n" ++ joinLines (e0 :: erest) := by
  rw [List.append_assoc,
    joinLines_append B (["", "Previous Actions:"] ++ (e0 :: erest)) hB (by simp)]
  have h2 : joinLines (["", "Previous Actions:"] ++ (e0 :: erest))
      = "" ++ "\n" ++ ("Previous Actions:" ++ "\n" ++ joinLines (e0 :: erest)) := rfl
  rw [h2]
  simp only [String.append_assoc]
  congr 1

theorem formatState_eq_spec (dom : DOMSnapshot) (prev : List ActionTrace) :
    formatStateForTraining dom prev = specFormatState dom prev := by
  cases prev with
  | nil => rfl
  | cons p ps =>
    obtain ⟨e0, erest, hE⟩ : ∃ e0 erest, (takeLast (p :: ps) 5).map (fun a =>
        "- " ++ a.type.toStr ++ ": " ++ a.instruction.take 100) = e0 :: erest := by
      cases hc : (takeLast (p :: ps) 5).map (fun a =>
          "- " ++ a.type.toStr ++ ": " ++ a.instruction.take 100) with
      | nil =>
        exact absurd (List.map_eq_nil_iff.mp hc) (takeLast_ne_nil (p :: ps) (by simp))
      | cons e0 erest => exact ⟨e0, erest, rfl⟩
    have hc1 : (p :: ps).length > 0 := by simp
    simp only [formatStateForTraining, specFormatState, specSnapshotBlock,
      specPrevWindow, hE]
    rw [if_pos hc1]
    exact joinLines_base_window _ e0 erest (by simp)

/-- C7: the SFT example input for the action at index `i` of a closed
session is exactly the spec's linearization: the action's before-snapshot
rendered as URL, title, visible text truncated to 2000 characters and at
most 30 interactive elements as `[tag] text (selector)`, followed by a
window of at most the 5 most recent prior actions of the same session (type
plus instruction truncated to 100 characters), the prior-actions section
being omitted entirely when `i = 0`. -/
theorem C7_input_is_spec_linearization (dom : DOMSnapshot)
    (prev : List ActionTrace) (session : SessionTrace) (i : Nat)
    (a : ActionTrace) (h : session.actions.get? i = some a) :
    formatStateForTraining dom prev = specFormatState dom prev
    ∧ ∃ ex : SFTExample,
        (generateSFTExamples session).get? i = some ex
        ∧ ex.input = specFormatState a.beforeDOM (session.actions.take i)
        ∧ (i = 0 → ex.input = specSnapshotBlock a.beforeDOM) := by
  refine ⟨formatState_eq_spec dom prev, mkSFTExample session i a, ?_, ?_, ?_⟩
  · have hg := generateSFTFrom_get session session.actions 0 i
    rw [generateSFTExamples, hg, h]
    simp
  · calc (mkSFTExample session i a).input
        = formatStateForTraining a.beforeDOM (session.actions.take i) := rfl
      _ = specFormatState a.beforeDOM (session.actions.take i) :=
        formatState_eq_spec _ _
  · intro hi
    subst hi
    calc (mkSFTExample session 0 a).input
        = formatStateForTraining a.beforeDOM (session.actions.take 0) := rfl
      _ = specFormatState a.beforeDOM (session.actions.take 0) :=
        formatState_eq_spec _ _
      _ = specFormatState a.beforeDOM [] := by rw [List.take_zero]
      _ = specSnapshotBlock a.beforeDOM := rfl

/-- C7 (witness): the theorem at the concrete session `sess0` and its action
at index 0. -/
theorem C7_input_is_spec_linearization_holds :
    formatStateForTraining snap0 [act0] = specFormatState snap0 [act0]
    ∧ ∃ ex : SFTExample,
        (generateSFTExamples sess0).get? 0 = some ex
        ∧ ex.input = specFormatState act0.beforeDOM (sess0.actions.take 0)
        ∧ (0 = 0 → ex.input = specSnapshotBlock act0.beforeDOM) :=
  C7_input_is_spec_linearization snap0 [act0] sess0 0 act0 rfl

end TraceCollector
